import Mathlib

/-!
Verification of the workspace/folder/file data-access layer and the sidebar
Dropdown component of the `cypress` collaborative-workspace application.

The persistence layer (`queries.ts`, embedded here from `src/unnamed/part_002`)
exposes CRUD functions over four Postgres tables declared in the drizzle schema
(`workspaces`, `folders`, `files`, `collaborators`, plus `subscriptions` and
`users`).  Each table is modelled as a list of rows inside a `DB` record, and
each data-access function becomes a pure Lean function over `DB`.  The single
persistence operation a function performs can succeed or throw; the outcome is
passed in explicitly as `exc : Option String` (`none` = success, `some msg` =
the driver threw `msg`).  Functions additionally report whether they reached
persistence at all (a `Bool`), so that fail-fast validation behaviour is
expressible.

The sidebar `Dropdown.tsx` component's pure logic (composite file keys,
title-editing commit on blur) is embedded further below.
-/

namespace Cypress

/-- Timestamps (`created_at` columns, ISO strings in the schema) are modelled
by naturals; only their linear order is ever used (`ORDER BY created_at`). -/
abbrev Timestamp := Nat

/-- Row of the `workspaces` table (drizzle schema): id and owner are `uuid`
columns, `data`/`logo`/`banner_url` are nullable `text`. -/
structure WorkspaceRow where
  id : String
  createdAt : Timestamp
  workspaceOwner : String
  title : String
  iconId : String
  data : Option String
  inTrash : String
  logo : Option String
  bannerUrl : Option String
deriving Repr, DecidableEq

/-- Row of the `folders` table; `workspace_id` references `workspaces.id`
with `onDelete: cascade`. -/
structure FolderRow where
  id : String
  createdAt : Timestamp
  workspaceId : String
  title : String
  iconId : String
  data : Option String
  inTrash : Option String
  bannerUrl : Option String
deriving Repr, DecidableEq

/-- Row of the `files` table; `folder_id` and `workspace_id` reference their
parents with `onDelete: cascade`. -/
structure FileRow where
  id : String
  createdAt : Timestamp
  folderId : String
  workspaceId : String
  title : String
  iconId : String
  data : Option String
  inTrash : Option String
  bannerUrl : Option String
deriving Repr, DecidableEq

/-- Row of the `collaborators` association table (`workspace_id`, `user_id`,
plus a db-generated `id` and `created_at`). -/
structure CollaboratorRow where
  id : String
  workspaceId : String
  createdAt : Timestamp
  userId : String
deriving Repr, DecidableEq

/-- Row of the `subscriptions` table (only the fields the embedded functions
read; the remaining billing columns never influence control flow). -/
structure SubscriptionRow where
  id : String
  userId : String
  status : Option String
deriving Repr, DecidableEq

/-- Row of the `users` table (declared in the generated migrations schema,
which is not part of the sources; only `id` and `email` are read by the
embedded functions). -/
structure UserRow where
  id : String
  email : Option String
deriving Repr, DecidableEq

/-- The relational store: one list of rows per table. -/
structure DB where
  workspaces : List WorkspaceRow
  folders : List FolderRow
  files : List FileRow
  collaborators : List CollaboratorRow
  subscriptions : List SubscriptionRow
  users : List UserRow
deriving Repr, DecidableEq

/-- The `{ data, error }` result shape returned by the data-access functions.
`none` models JavaScript `null`/absence. -/
structure QueryResult (α : Type) where
  data : Option α
  error : Option String
deriving Repr, DecidableEq

/-- `Partial<Folder>`: every column optional; only present fields are written
by `db.update(...).set(...)`. -/
structure FolderPatch where
  id : Option String := none
  createdAt : Option Timestamp := none
  workspaceId : Option String := none
  title : Option String := none
  iconId : Option String := none
  data : Option (Option String) := none
  inTrash : Option (Option String) := none
  bannerUrl : Option (Option String) := none
deriving Repr, DecidableEq

/-- `Partial<File>`. -/
structure FilePatch where
  id : Option String := none
  createdAt : Option Timestamp := none
  folderId : Option String := none
  workspaceId : Option String := none
  title : Option String := none
  iconId : Option String := none
  data : Option (Option String) := none
  inTrash : Option (Option String) := none
  bannerUrl : Option (Option String) := none
deriving Repr, DecidableEq

/-- Apply a `Partial<Folder>` to a folder row (`UPDATE ... SET` semantics:
fields present in the patch overwrite, all others are retained). -/
def applyFolderPatch (p : FolderPatch) (f : FolderRow) : FolderRow :=
  { id := p.id.getD f.id
    createdAt := p.createdAt.getD f.createdAt
    workspaceId := p.workspaceId.getD f.workspaceId
    title := p.title.getD f.title
    iconId := p.iconId.getD f.iconId
    data := p.data.getD f.data
    inTrash := p.inTrash.getD f.inTrash
    bannerUrl := p.bannerUrl.getD f.bannerUrl }

/-- Apply a `Partial<File>` to a file row. -/
def applyFilePatch (p : FilePatch) (f : FileRow) : FileRow :=
  { id := p.id.getD f.id
    createdAt := p.createdAt.getD f.createdAt
    folderId := p.folderId.getD f.folderId
    workspaceId := p.workspaceId.getD f.workspaceId
    title := p.title.getD f.title
    iconId := p.iconId.getD f.iconId
    data := p.data.getD f.data
    inTrash := p.inTrash.getD f.inTrash
    bannerUrl := p.bannerUrl.getD f.bannerUrl }

/-- Hex digit (case-insensitive, as the uuid regex carries the `i` flag). -/
def isHexDigit (c : Char) : Bool :=
  (decide ('0' ≤ c) && decide (c ≤ '9')) ||
  (decide ('a' ≤ c) && decide (c ≤ 'f')) ||
  (decide ('A' ≤ c) && decide (c ≤ 'F'))

/-- `validate` from the `uuid` package: a string is a canonical identifier iff
it is the nil uuid or matches
`[0-9a-f]{8}-[0-9a-f]{4}-[1-5][0-9a-f]{3}-[89ab][0-9a-f]{3}-[0-9a-f]{12}`
case-insensitively (dashes at positions 8, 13, 18, 23; version digit at
position 14; variant digit at position 19). -/
def validate (s : String) : Bool :=
  let cs := s.toList
  cs == "00000000-0000-0000-0000-000000000000".toList ||
  (cs.length == 36 &&
    (List.range 36).all (fun i =>
      let c := cs.getD i ' '
      if i == 8 || i == 13 || i == 18 || i == 23 then c == '-'
      else if i == 14 then decide ('1' ≤ c) && decide (c ≤ '5')
      else if i == 19 then
        c == '8' || c == '9' || c == 'a' || c == 'b' || c == 'A' || c == 'B'
      else isHexDigit c))

/-- Comparison used by `ORDER BY created_at` (ascending, drizzle default). -/
def byCreatedAt (a b : Timestamp) : Bool := decide (a ≤ b)

/-- `getUserSubscriptionStatus(userId)`: `findFirst` on subscriptions by
`userId`; found row → `{ data, error: null }`, none → `{ null, null }`,
exception → `{ null, ``Error ${error}`` }`. -/
def getUserSubscriptionStatus (db : DB) (userId : String) (exc : Option String) :
    QueryResult SubscriptionRow × Bool :=
  match exc with
  | none =>
    match db.subscriptions.find? (fun s => s.userId == userId) with
    | some s => ({ data := some s, error := none }, true)
    | none => ({ data := none, error := none }, true)
  | some e => ({ data := none, error := some ("Error " ++ e) }, true)

/-- `getFolders(workspaceId)`: validates the id (fail-fast, no persistence
call), then selects the workspace's folders ordered by `created_at`. -/
def getFolders (db : DB) (workspaceId : String) (exc : Option String) :
    QueryResult (List FolderRow) × Bool :=
  if !(validate workspaceId) then
    ({ data := none, error := some "Invalid workspace ID" }, false)
  else
    match exc with
    | none =>
      ({ data := some ((db.folders.filter
            (fun f => f.workspaceId == workspaceId)).mergeSort
            (fun a b => byCreatedAt a.createdAt b.createdAt)),
         error := none }, true)
    | some _ => ({ data := none, error := some "Error" }, true)

/-- `getPrivateWorkspaces(userId)`: empty/absent user id → bare `[]` without a
persistence call; otherwise the workspaces owned by `userId` for which no
`collaborators` row references the workspace (`notExists` subquery). -/
def getPrivateWorkspaces (db : DB) (userId : String) :
    List WorkspaceRow × Bool :=
  if userId == "" then ([], false)
  else
    (db.workspaces.filter (fun w =>
      !(db.collaborators.any (fun c => c.workspaceId == w.id)) &&
      w.workspaceOwner == userId), true)

/-- `getCollaboratingWorkspaces(userId)`: empty user id → bare `[]`; otherwise
`users ⋈ collaborators ⋈ workspaces` restricted to `users.id = userId`,
projected on the workspace columns. -/
def getCollaboratingWorkspaces (db : DB) (userId : String) :
    List WorkspaceRow × Bool :=
  if userId == "" then ([], false)
  else
    ((db.users.filter (fun u => u.id == userId)).flatMap (fun u =>
      (db.collaborators.filter (fun c => c.userId == u.id)).flatMap (fun c =>
        db.workspaces.filter (fun w => w.id == c.workspaceId))), true)

/-- `getSharedWorkspaces(userId)`: empty user id → bare `[]`; otherwise
`SELECT DISTINCT` of `workspaces ⋈ collaborators` (on `workspaces.id =
collaborators.workspace_id`) owned by `userId`, ordered by `created_at`. -/
def getSharedWorkspaces (db : DB) (userId : String) :
    List WorkspaceRow × Bool :=
  if userId == "" then ([], false)
  else
    let joined := db.workspaces.flatMap (fun w =>
      (db.collaborators.filter (fun c => c.workspaceId == w.id)).map
        (fun _ => w))
    (((joined.filter (fun w => w.workspaceOwner == userId)).dedup).mergeSort
      (fun a b => byCreatedAt a.createdAt b.createdAt), true)

/-- `getFiles(folderId)`: validates the id (fail-fast), then selects the
folder's files ordered by `created_at`. -/
def getFiles (db : DB) (folderId : String) (exc : Option String) :
    QueryResult (List FileRow) × Bool :=
  if !(validate folderId) then ({ data := none, error := some "Error" }, false)
  else
    match exc with
    | none =>
      ({ data := some ((db.files.filter
            (fun f => f.folderId == folderId)).mergeSort
            (fun a b => byCreatedAt a.createdAt b.createdAt)),
         error := none }, true)
    | some _ => ({ data := none, error := some "Error" }, true)

/-- `getWorkspaceDetails(workspaceId)`: validates the id (fail-fast with
`{ data: [], error: 'Error' }`), then selects the workspace, `LIMIT 1`. -/
def getWorkspaceDetails (db : DB) (workspaceId : String) (exc : Option String) :
    QueryResult (List WorkspaceRow) × Bool :=
  if !(validate workspaceId) then
    ({ data := some [], error := some "Error" }, false)
  else
    match exc with
    | none =>
      ({ data := some ((db.workspaces.filter
            (fun w => w.id == workspaceId)).take 1), error := none }, true)
    | some _ => ({ data := some [], error := some "Error" }, true)

/-- `getFolderDetails(folderId)`: the source computes `validate(folderId)` but
the invalid branch is two labelled statements with no `return`, i.e. dead
code — the query is performed regardless of the check's outcome. -/
def getFolderDetails (db : DB) (folderId : String) (exc : Option String) :
    QueryResult (List FolderRow) × Bool :=
  match exc with
  | none =>
    ({ data := some ((db.folders.filter
          (fun f => f.id == folderId)).take 1), error := none }, true)
  | some _ => ({ data := some [], error := some "Error" }, true)

/-- `getFileDetails(fileId)`: same missing `return` after the format check as
`getFolderDetails`; the query always runs. -/
def getFileDetails (db : DB) (fileId : String) (exc : Option String) :
    QueryResult (List FileRow) × Bool :=
  match exc with
  | none =>
    ({ data := some ((db.files.filter
          (fun f => f.id == fileId)).take 1), error := none }, true)
  | some _ => ({ data := some [], error := some "Error" }, true)

/-- `createWorkspace(workspace)`: inserts the row; returns
`{ data: null, error: null }` on success, `{ null, 'Error' }` on exception. -/
def createWorkspace (db : DB) (w : WorkspaceRow) (exc : Option String) :
    DB × QueryResult Unit × Bool :=
  match exc with
  | none =>
    ({ db with workspaces := db.workspaces ++ [w] },
     { data := none, error := none }, true)
  | some _ => (db, { data := none, error := some "Error" }, true)

/-- The row inserted by `addCollaborators` provides only `workspaceId` and
`userId`; `id` and `created_at` are database-generated defaults, modelled by
fixed values (they never influence the collaborator-pair semantics). -/
def newCollabRow (workspaceId userId : String) : CollaboratorRow :=
  { id := "", workspaceId := workspaceId, createdAt := 0, userId := userId }

/-- Per-user step of `addCollaborators`: `findFirst` on the
(userId, workspaceId) pair; insert only when absent. -/
def addCollabStep (workspaceId : String) (d : DB) (user : UserRow) : DB :=
  match d.collaborators.find?
      (fun c => c.userId == user.id && c.workspaceId == workspaceId) with
  | some _ => d
  | none =>
    { d with collaborators := d.collaborators ++ [newCollabRow workspaceId user.id] }

/-- `addCollaborators(users, workspaceId)`: for each user, insert the
collaborator pair unless it already exists. -/
def addCollaborators (db : DB) (usersArg : List UserRow) (workspaceId : String) : DB :=
  usersArg.foldl (addCollabStep workspaceId) db

/-- Per-user step of `removeCollaborators`: `findFirst` the pair; when present,
delete every row matching (workspaceId, userId). -/
def removeCollabStep (workspaceId : String) (d : DB) (user : UserRow) : DB :=
  match d.collaborators.find?
      (fun c => c.userId == user.id && c.workspaceId == workspaceId) with
  | some _ =>
    { d with collaborators := d.collaborators.filter (fun c =>
        !(c.workspaceId == workspaceId && c.userId == user.id)) }
  | none => d

/-- `removeCollaborators(users, workspaceId)`. -/
def removeCollaborators (db : DB) (usersArg : List UserRow) (workspaceId : String) : DB :=
  usersArg.foldl (removeCollabStep workspaceId) db

/-- `createFolder(folder)`. -/
def createFolder (db : DB) (folder : FolderRow) (exc : Option String) :
    DB × QueryResult Unit × Bool :=
  match exc with
  | none =>
    ({ db with folders := db.folders ++ [folder] },
     { data := none, error := none }, true)
  | some _ => (db, { data := none, error := some "Error" }, true)

/-- `createFile(file)`. -/
def createFile (db : DB) (file : FileRow) (exc : Option String) :
    DB × QueryResult Unit × Bool :=
  match exc with
  | none =>
    ({ db with files := db.files ++ [file] },
     { data := none, error := none }, true)
  | some _ => (db, { data := none, error := some "Error" }, true)

/-- `updateFile(file, fileId)`: no id-format check; `UPDATE files SET ...
WHERE id = fileId`. -/
def updateFile (db : DB) (file : FilePatch) (fileId : String) (exc : Option String) :
    DB × QueryResult Unit × Bool :=
  match exc with
  | none =>
    ({ db with files := db.files.map (fun f =>
        if f.id == fileId then applyFilePatch file f else f) },
     { data := none, error := none }, true)
  | some _ => (db, { data := none, error := some "Error" }, true)

/-- `updateFolder(folder, folderId)`: no id-format check; `UPDATE folders
SET ... WHERE id = folderId`. -/
def updateFolder (db : DB) (folder : FolderPatch) (folderId : String) (exc : Option String) :
    DB × QueryResult Unit × Bool :=
  match exc with
  | none =>
    ({ db with folders := db.folders.map (fun f =>
        if f.id == folderId then applyFolderPatch folder f else f) },
     { data := none, error := none }, true)
  | some _ => (db, { data := none, error := some "Error" }, true)

/-- `updateWorkspace(workspace, workspaceId)`: falsy id → bare `return`
(modelled as `none` result, no persistence); otherwise the update runs. -/
def updateWorkspace (db : DB) (w : FolderPatch) (workspaceId : String) (exc : Option String) :
    DB × Option (QueryResult Unit) × Bool :=
  if workspaceId == "" then (db, none, false)
  else
    match exc with
    | none =>
      ({ db with workspaces := db.workspaces.map (fun ws =>
          if ws.id == workspaceId then
            { ws with
              title := w.title.getD ws.title
              iconId := w.iconId.getD ws.iconId
              data := (w.data.getD ws.data)
              inTrash := (w.inTrash.getD (some ws.inTrash)).getD ws.inTrash
              bannerUrl := w.bannerUrl.getD ws.bannerUrl }
          else ws) },
       some { data := none, error := none }, true)
    | some _ => (db, some { data := none, error := some "Error" }, true)

/-- `deleteWorkspace(workspaceId)`: falsy id → no-op without persistence;
otherwise delete the workspace row.  The schema's `onDelete: cascade`
references remove the workspace's folders, files and collaborator rows. -/
def deleteWorkspace (db : DB) (workspaceId : String) : DB × Bool :=
  if workspaceId == "" then (db, false)
  else
    ({ db with
        workspaces := db.workspaces.filter (fun w => !(w.id == workspaceId))
        folders := db.folders.filter (fun f => !(f.workspaceId == workspaceId))
        files := db.files.filter (fun f => !(f.workspaceId == workspaceId))
        collaborators := db.collaborators.filter (fun c =>
          !(c.workspaceId == workspaceId)) }, true)

/-- `deleteFile(fileId)`: falsy id → no-op; otherwise
`DELETE FROM files WHERE files.id = fileId`. -/
def deleteFile (db : DB) (fileId : String) : DB × Bool :=
  if fileId == "" then (db, false)
  else ({ db with files := db.files.filter (fun f => !(f.id == fileId)) }, true)

/-- `deleteFolder(folderId)` as written in the source: it issues
`db.delete(files).where(eq(files.id, folderId))`, i.e. it deletes from the
`files` table the rows whose file id equals the given folder id, and never
touches the `folders` table. -/
def deleteFolder (db : DB) (folderId : String) : DB × Bool :=
  if folderId == "" then (db, false)
  else ({ db with files := db.files.filter (fun f => !(f.id == folderId)) }, true)

/-- `findUser(userId)`. -/
def findUser (db : DB) (userId : String) : Option UserRow :=
  db.users.find? (fun u => u.id == userId)

/-!
Embedding of the pure logic of `src/components/sidebar/Dropdown.tsx`:
the composite file key `` `${id}folder${file.id}` ``, its parsing via
JavaScript `id.split('folder')`, the memoised `folderTitle`/`fileTitle`
selectors, the change handlers that dispatch `UPDATE_FOLDER`/`UPDATE_FILE`
during editing, and the `handleBlur` commit on focus-loss.
-/

/-- JavaScript `String.prototype.split` with a non-empty string separator,
written with explicit fuel so that it is structurally recursive (the caller
passes the length of the input, which always suffices).  The accumulator
holds the current segment reversed. -/
def splitOnFuel (sep : List Char) : Nat → List Char → List Char → List (List Char)
  | 0, s, acc => [acc.reverse ++ s]
  | _ + 1, [], acc => [acc.reverse]
  | fuel + 1, c :: rest, acc =>
    if sep.isPrefixOf (c :: rest) then
      acc.reverse :: splitOnFuel sep fuel (List.drop (sep.length - 1) rest) []
    else
      splitOnFuel sep fuel rest (c :: acc)

/-- JavaScript `s.split(sep)` for a non-empty `sep`. -/
def jsSplit (s sep : String) : List String :=
  (splitOnFuel sep.toList s.toList.length s.toList []).map List.asString

/-- The separator token of the composite file key, `"folder".toList`. -/
def fsep : List Char := ['f', 'o', 'l', 'd', 'e', 'r']

/-- The composite file key built in the folder's `AccordionContent`:
`` const customFileId = `${id}folder${file.id}` ``. -/
def customFileId (id fileId : String) : String := id ++ "folder" ++ fileId

/-- Parsing of a composite key at a file-action dispatch site: the source
computes `const fid = id.split('folder')` and uses `fid[0]` / `fid[1]` after
checking `fid.length === 2`. -/
def parseFileKey (key : String) : Option (String × String) :=
  let fid := jsSplit key "folder"
  if fid.length == 2 then some (fid.getD 0 "", fid.getD 1 "") else none

/-- The `listType` prop of the Dropdown. -/
inductive ListType where
  | folder
  | file
deriving Repr, DecidableEq

/-- `appFoldersType`: a folder row together with its loaded files. -/
structure AppFolder extends FolderRow where
  files : List FileRow
deriving Repr, DecidableEq

/-- `appWorkspacesType`: a workspace row together with its loaded folders. -/
structure AppWorkspace extends WorkspaceRow where
  folders : List AppFolder
deriving Repr, DecidableEq

/-- The hierarchical state store read by the Dropdown. -/
structure AppState where
  workspaces : List AppWorkspace
deriving Repr, DecidableEq

/-- JavaScript truthiness of a `string | undefined` value: `undefined` and
the empty string are falsy. -/
def jsTruthy : Option String → Bool
  | none => false
  | some s => s != ""

/-- The memoised `folderTitle` of the Dropdown: for `listType === 'folder'`,
look the folder up in the store; return the `title` prop when it matches the
state title or the state title is falsy, else the state title. -/
def folderTitle (listType : ListType) (st : AppState) (workspaceId id title : String) :
    Option String :=
  if listType = ListType.folder then
    let stateWorkspace := st.workspaces.find? (fun w => w.id == workspaceId)
    let stateFolderTitle := (stateWorkspace.bind (fun w =>
      w.folders.find? (fun f => f.id == id))).map (fun f => f.title)
    match stateFolderTitle with
    | none => some title
    | some t => if title == t || t == "" then some title else some t
  else none

/-- The memoised `fileTitle` of the Dropdown: for `listType === 'file'`, split
the composite id on `'folder'`, look the file up under
(`fileAndFolderId[0]`, `fileAndFolderId[1]`), and fall back to the `title`
prop when the state title is falsy or equal to it. -/
def fileTitle (listType : ListType) (st : AppState) (workspaceId id title : String) :
    Option String :=
  if listType = ListType.file then
    let fileAndFolderId := jsSplit id "folder"
    let stateWorkspace := st.workspaces.find? (fun w => w.id == workspaceId)
    let stateFolder := stateWorkspace.bind (fun w =>
      w.folders.find? (fun f => fileAndFolderId[0]? == some f.id))
    let stateFileTitle := (stateFolder.bind (fun f =>
      f.files.find? (fun fl => fileAndFolderId[1]? == some fl.id))).map
      (fun fl => fl.title)
    match stateFileTitle with
    | none => some title
    | some t => if title == t || t == "" then some title else some t
  else none

/-- A persistence call issued by a Dropdown handler. -/
inductive PersistCall where
  | folderUpdate (title : String) (folderId : String)
  | fileUpdate (title : String) (fileId : String)
deriving Repr, DecidableEq

/-- A store action dispatched by a Dropdown handler. -/
inductive StoreAction where
  | UPDATE_FOLDER (workspaceId folderId : String) (folder : FolderPatch)
  | UPDATE_FILE (workspaceId folderId fileId : String) (file : FilePatch)
deriving Repr, DecidableEq

/-- `handleBlur`: when editing, leave editing mode and commit: split the id on
`'folder'`; a 1-segment id is a folder — abort silently when `folderTitle` is
falsy, else call `updateFolder({ title }, fId[0])` **with the `title` prop**;
a 2-segment id with truthy second segment is a file — abort silently when
`fileTitle` is falsy, else call `updateFile({ title: fileTitle }, fId[1])`.
No store action is dispatched here.  Returns the persistence call issued. -/
def handleBlur (isEditing : Bool) (listType : ListType) (st : AppState)
    (workspaceId id title : String) : Option PersistCall :=
  if !isEditing then none
  else
    let fId := jsSplit id "folder"
    if fId.length == 1 then
      if !(jsTruthy (folderTitle listType st workspaceId id title)) then none
      else some (PersistCall.folderUpdate title (fId.getD 0 ""))
    else if fId.length == 2 && (fId.getD 1 "" != "") then
      if !(jsTruthy (fileTitle listType st workspaceId id title)) then none
      else
        some (PersistCall.fileUpdate
          ((fileTitle listType st workspaceId id title).getD "") (fId.getD 1 ""))
    else none

/-- `folderTitleChange`: on each keystroke during editing, dispatch
`UPDATE_FOLDER` with the pending title (`e.target.value`), provided a
workspace is selected and the id splits into a single segment. -/
def folderTitleChange (workspaceId id value : String) : Option StoreAction :=
  if workspaceId == "" then none
  else
    let fid := jsSplit id "folder"
    if fid.length == 1 then
      some (StoreAction.UPDATE_FOLDER workspaceId (fid.getD 0 "")
        { title := some value })
    else none

/-- `fileTitleChange`: on each keystroke during editing, dispatch
`UPDATE_FILE` with the pending title, provided workspace and folder context
are present and the id splits into two segments with truthy second segment. -/
def fileTitleChange (workspaceId folderId id value : String) : Option StoreAction :=
  if workspaceId == "" || folderId == "" then none
  else
    let fid := jsSplit id "folder"
    if fid.length == 2 && (fid.getD 1 "" != "") then
      some (StoreAction.UPDATE_FILE workspaceId folderId (fid.getD 1 "")
        { title := some value })
    else none

/-! ### Concrete rows and states used by witnesses and counterexamples -/

/-- A workspace row with the given id, owner and creation time and neutral
remaining fields. -/
def mkWorkspace (id owner : String) (t : Timestamp) : WorkspaceRow :=
  { id := id, createdAt := t, workspaceOwner := owner, title := "T",
    iconId := "i", data := none, inTrash := "", logo := none, bannerUrl := none }

/-- A folder row with the given id, workspace and creation time. -/
def mkFolder (id workspaceId : String) (t : Timestamp) : FolderRow :=
  { id := id, createdAt := t, workspaceId := workspaceId, title := "T",
    iconId := "i", data := none, inTrash := none, bannerUrl := none }

/-- A file row with the given id, folder, workspace and creation time. -/
def mkFile (id folderId workspaceId : String) (t : Timestamp) : FileRow :=
  { id := id, createdAt := t, folderId := folderId, workspaceId := workspaceId,
    title := "T", iconId := "i", data := none, inTrash := none, bannerUrl := none }

/-- The empty database. -/
def emptyDB : DB :=
  { workspaces := [], folders := [], files := [], collaborators := [],
    subscriptions := [], users := [] }

/-- A database holding one folder `f1` of workspace `w1` and one file `a1`
inside that folder. -/
def C1db : DB :=
  { emptyDB with
      folders := [mkFolder "f1" "w1" 0]
      files := [mkFile "a1" "f1" "w1" 1] }

/-! ### C1 — `deleteFolder` does not delete from the folders collection -/

/-- C1 (code bug): the claim states that `deleteFolder(folderId)` removes from
the folders collection the folder whose id equals `folderId`, mirroring the
workspace delete one level down.  The source instead issues
`db.delete(files).where(eq(files.id, folderId))`: on a database containing
folder `f1` (with a file `a1` inside it), `deleteFolder("f1")` leaves the
whole database unchanged — the folder row survives, and no files-table row
has file id `f1` to be deleted. -/
theorem C1_deleteFolder_deletes_from_files_table :
    (deleteFolder C1db "f1").1 = C1db ∧
    mkFolder "f1" "w1" 0 ∈ C1db.folders ∧
    (deleteFolder C1db "f1").1.folders = [mkFolder "f1" "w1" 0] := by
  decide

/-! ### C2 — id-format validation coverage -/

/-- C2 (counterexample): for the malformed id `"not-a-uuid"`, `updateFolder`
performs its persistence operation (third component `true`) and returns a
success result rather than a typed validation error, and `getFolderDetails`
also reaches persistence; so it is false that every id-addressed data-access
function fails fast on a malformed id. -/
theorem C2_invalid_id_reaches_persistence :
    validate "not-a-uuid" = false ∧
    (updateFolder emptyDB { title := some "X" } "not-a-uuid" none).2.2 = true ∧
    (updateFolder emptyDB { title := some "X" } "not-a-uuid" none).2.1.error = none ∧
    (getFolderDetails emptyDB "not-a-uuid" none).2 = true := by
  decide

/-- C2 (amended): only `getFolders`, `getFiles` and `getWorkspaceDetails`
fail fast with a typed error and no persistence operation on a malformed id;
`getFolderDetails` and `getFileDetails` compute the format check but reach
persistence regardless (dead validation branch), and the id-addressed
mutation functions (`updateFile`, `updateFolder`, and the deletes for any
non-empty malformed id) perform no format check and reach persistence. -/
theorem C2_validation_only_in_some_reads (db : DB) (id : String)
    (exc : Option String) (fp : FilePatch) (flp : FolderPatch)
    (h : validate id = false) :
    ((getFolders db id exc).1.error ≠ none ∧ (getFolders db id exc).2 = false) ∧
    ((getFiles db id exc).1.error ≠ none ∧ (getFiles db id exc).2 = false) ∧
    ((getWorkspaceDetails db id exc).1.error ≠ none ∧
      (getWorkspaceDetails db id exc).2 = false) ∧
    (getFolderDetails db id exc).2 = true ∧
    (getFileDetails db id exc).2 = true ∧
    (updateFile db fp id exc).2.2 = true ∧
    (updateFolder db flp id exc).2.2 = true ∧
    (id ≠ "" →
      (deleteWorkspace db id).2 = true ∧ (deleteFile db id).2 = true ∧
      (deleteFolder db id).2 = true) := by
  refine ⟨⟨?_, ?_⟩, ⟨?_, ?_⟩, ⟨?_, ?_⟩, ?_, ?_, ?_, ?_, ?_⟩ <;>
    cases exc <;>
      simp [getFolders, getFiles, getWorkspaceDetails, getFolderDetails,
        getFileDetails, updateFile, updateFolder, deleteWorkspace, deleteFile,
        deleteFolder, h] <;>
    intro hne <;> simp [hne]

/-- Witness for C2's amended theorem at the concrete malformed id
`"not-a-uuid"` on the empty database. -/
theorem C2_validation_only_in_some_reads_witness :
    (getFolders emptyDB "not-a-uuid" none).2 = false ∧
    (getFolderDetails emptyDB "not-a-uuid" none).2 = true ∧
    (updateFolder emptyDB {} "not-a-uuid" none).2.2 = true := by
  have h := C2_validation_only_in_some_reads emptyDB "not-a-uuid" none {} {}
    (by decide)
  exact ⟨h.1.2, h.2.2.2.1, h.2.2.2.2.2.2.1⟩

/-! ### C3 — the `{ data, error }` result shape -/

/-- At most one of `data`/`error` is populated. -/
def atMostOnePopulated {α : Type} (r : QueryResult α) : Prop :=
  r.data = none ∨ r.error = none

/-- C3 (counterexample): `createWorkspace` on a successful insert returns
`{ data: null, error: null }` — *neither* field is populated, so the claim
that exactly one of the two is populated on every outcome is false. -/
theorem C3_createWorkspace_success_populates_neither :
    (createWorkspace emptyDB (mkWorkspace "w1" "u1" 0) none).2.1.data = none ∧
    (createWorkspace emptyDB (mkWorkspace "w1" "u1" 0) none).2.1.error = none := by
  decide

/-- C3 (amended): for `createWorkspace`, `createFolder`, `createFile`,
`updateFile`, `updateFolder` and `getUserSubscriptionStatus`, at most one of
`data`/`error` is populated, and `error` is populated exactly when the
persistence operation fails (with `data` null then); on success `error` is
null but `data` may also be null (the creates and updates always return
`data: null`, and `getUserSubscriptionStatus` returns `data: null` when no
subscription row matches). -/
theorem C3_result_shape (db : DB) (w : WorkspaceRow) (fo : FolderRow)
    (fi : FileRow) (fp : FilePatch) (flp : FolderPatch)
    (fileId folderId userId : String) (exc : Option String) :
    (atMostOnePopulated (createWorkspace db w exc).2.1 ∧
      ((createWorkspace db w exc).2.1.error ≠ none ↔ exc ≠ none)) ∧
    (atMostOnePopulated (createFolder db fo exc).2.1 ∧
      ((createFolder db fo exc).2.1.error ≠ none ↔ exc ≠ none)) ∧
    (atMostOnePopulated (createFile db fi exc).2.1 ∧
      ((createFile db fi exc).2.1.error ≠ none ↔ exc ≠ none)) ∧
    (atMostOnePopulated (updateFile db fp fileId exc).2.1 ∧
      ((updateFile db fp fileId exc).2.1.error ≠ none ↔ exc ≠ none)) ∧
    (atMostOnePopulated (updateFolder db flp folderId exc).2.1 ∧
      ((updateFolder db flp folderId exc).2.1.error ≠ none ↔ exc ≠ none)) ∧
    (atMostOnePopulated (getUserSubscriptionStatus db userId exc).1 ∧
      ((getUserSubscriptionStatus db userId exc).1.error ≠ none ↔ exc ≠ none)) := by
  cases exc <;>
    simp only [createWorkspace, createFolder, createFile, updateFile,
      updateFolder, getUserSubscriptionStatus, atMostOnePopulated] <;>
  rcases h : db.subscriptions.find? (fun s => s.userId == userId) with _ | s <;>
    simp [h]

/-! ### C9 — falsy actor id short-circuits the workspace listings -/

/-- C9: each of the three workspace-listing functions returns the bare empty
array for an empty (falsy) user id, without performing any persistence
operation (second component `false`); they return a bare array, not a
`{ data, error }` result. -/
theorem C9_falsy_actor_returns_empty (db : DB) :
    getPrivateWorkspaces db "" = ([], false) ∧
    getCollaboratingWorkspaces db "" = ([], false) ∧
    getSharedWorkspaces db "" = ([], false) := by
  refine ⟨?_, ?_, ?_⟩ <;>
    simp [getPrivateWorkspaces, getCollaboratingWorkspaces, getSharedWorkspaces]

/-! ### C6 — collaborator add/remove are idempotent -/

/-- The collaborators table holds a row for the (workspace, user) pair. -/
def HasCollabPair (d : DB) (workspaceId userId : String) : Prop :=
  ∃ c ∈ d.collaborators, c.workspaceId = workspaceId ∧ c.userId = userId

instance (d : DB) (w u : String) : Decidable (HasCollabPair d w u) := by
  unfold HasCollabPair; infer_instance

/-- The `findFirst` existence check of `addCollaborators`/`removeCollaborators`
succeeds exactly when the pair is present. -/
theorem find?_collab_isSome (d : DB) (w uid : String) :
    (d.collaborators.find?
      (fun c => c.userId == uid && c.workspaceId == w)).isSome = true ↔
    HasCollabPair d w uid := by
  rw [List.find?_isSome]
  constructor
  · rintro ⟨c, hc, hp⟩
    simp only [Bool.and_eq_true, beq_iff_eq] at hp
    exact ⟨c, hc, hp.2, hp.1⟩
  · rintro ⟨c, hc, h1, h2⟩
    exact ⟨c, hc, by simp [h1, h2]⟩

theorem addCollabStep_of_pair {d : DB} {w : String} {u : UserRow}
    (h : HasCollabPair d w u.id) : addCollabStep w d u = d := by
  unfold addCollabStep
  split
  · rfl
  · next hf => exact absurd ((find?_collab_isSome d w u.id).mpr h) (by simp [hf])

theorem pair_addCollabStep_self (d : DB) (w : String) (u : UserRow) :
    HasCollabPair (addCollabStep w d u) w u.id := by
  unfold addCollabStep
  split
  · next c hf =>
    have := List.find?_some hf
    simp only [Bool.and_eq_true, beq_iff_eq] at this
    exact ⟨c, List.mem_of_find?_eq_some hf, this.2, this.1⟩
  · exact ⟨newCollabRow w u.id, by simp, rfl, rfl⟩

theorem pair_addCollabStep_mono {d : DB} {w' v : String}
    (h : HasCollabPair d w' v) (w : String) (u : UserRow) :
    HasCollabPair (addCollabStep w d u) w' v := by
  unfold addCollabStep
  split
  · exact h
  · obtain ⟨c, hc, h1, h2⟩ := h
    exact ⟨c, by simp [hc], h1, h2⟩

theorem pair_addCollaborators_mono {d : DB} {w' v : String}
    (h : HasCollabPair d w' v) (us : List UserRow) (w : String) :
    HasCollabPair (addCollaborators d us w) w' v := by
  induction us generalizing d with
  | nil => exact h
  | cons u rest ih => exact ih (pair_addCollabStep_mono h w u)

theorem pair_addCollaborators_of_mem {us : List UserRow} {u : UserRow}
    (hu : u ∈ us) (d : DB) (w : String) :
    HasCollabPair (addCollaborators d us w) w u.id := by
  induction us generalizing d with
  | nil => cases hu
  | cons v rest ih =>
    rcases List.mem_cons.mp hu with h | h
    · subst h
      exact pair_addCollaborators_mono (pair_addCollabStep_self d w u) rest w
    · exact ih h (addCollabStep w d v)

theorem addCollaborators_noop {d : DB} {us : List UserRow} {w : String}
    (h : ∀ u ∈ us, HasCollabPair d w u.id) : addCollaborators d us w = d := by
  induction us with
  | nil => rfl
  | cons u rest ih =>
    show addCollaborators (addCollabStep w d u) rest w = d
    rw [addCollabStep_of_pair (h u (by simp))]
    exact ih (fun v hv => h v (by simp [hv]))

theorem removeCollabStep_of_no_pair {d : DB} {w : String} {u : UserRow}
    (h : ¬ HasCollabPair d w u.id) : removeCollabStep w d u = d := by
  unfold removeCollabStep
  split
  · next c hf =>
    have := List.find?_some hf
    simp only [Bool.and_eq_true, beq_iff_eq] at this
    exact absurd ⟨c, List.mem_of_find?_eq_some hf, this.2, this.1⟩ h
  · rfl

theorem no_pair_removeCollabStep_self (d : DB) (w : String) (u : UserRow) :
    ¬ HasCollabPair (removeCollabStep w d u) w u.id := by
  unfold removeCollabStep
  split
  · rintro ⟨x, hx, h1, h2⟩
    have := (List.mem_filter.mp hx).2
    simp only [Bool.not_eq_true', Bool.and_eq_false_iff, beq_eq_false_iff_ne,
      ne_eq] at this
    rcases this with h | h
    · exact h h1
    · exact h h2
  · next hf =>
    rintro ⟨c, hc, h1, h2⟩
    have : ∀ x ∈ d.collaborators,
        ¬ (x.userId == u.id && x.workspaceId == w) = true :=
      List.find?_eq_none.mp hf
    exact this c hc (by simp [h1, h2])

theorem no_pair_removeCollabStep_mono {d : DB} {w' v : String}
    (h : ¬ HasCollabPair d w' v) (w : String) (u : UserRow) :
    ¬ HasCollabPair (removeCollabStep w d u) w' v := by
  unfold removeCollabStep
  split
  · rintro ⟨x, hx, h1, h2⟩
    exact h ⟨x, (List.mem_filter.mp hx).1, h1, h2⟩
  · exact h

theorem no_pair_removeCollaborators_mono {d : DB} {w' v : String}
    (h : ¬ HasCollabPair d w' v) (us : List UserRow) (w : String) :
    ¬ HasCollabPair (removeCollaborators d us w) w' v := by
  induction us generalizing d with
  | nil => exact h
  | cons u rest ih => exact ih (no_pair_removeCollabStep_mono h w u)

theorem no_pair_removeCollaborators_of_mem {us : List UserRow} {u : UserRow}
    (hu : u ∈ us) (d : DB) (w : String) :
    ¬ HasCollabPair (removeCollaborators d us w) w u.id := by
  induction us generalizing d with
  | nil => cases hu
  | cons v rest ih =>
    rcases List.mem_cons.mp hu with h | h
    · subst h
      exact no_pair_removeCollaborators_mono
        (no_pair_removeCollabStep_self d w u) rest w
    · exact ih h (removeCollabStep w d v)

theorem removeCollaborators_noop {d : DB} {us : List UserRow} {w : String}
    (h : ∀ u ∈ us, ¬ HasCollabPair d w u.id) :
    removeCollaborators d us w = d := by
  induction us with
  | nil => rfl
  | cons u rest ih =>
    show removeCollaborators (removeCollabStep w d u) rest w = d
    rw [removeCollabStep_of_no_pair (h u (by simp))]
    exact ih (fun v hv => h v (by simp [hv]))

/-- C6: collaborator add and remove are idempotent.  Adding users whose pairs
all already exist is a no-op; removing users none of whose pairs exist is a
no-op; and applying either operation twice has the same effect on the
database as applying it once. -/
theorem C6_collaborators_idempotent (db : DB) (us : List UserRow) (w : String) :
    ((∀ u ∈ us, HasCollabPair db w u.id) → addCollaborators db us w = db) ∧
    ((∀ u ∈ us, ¬ HasCollabPair db w u.id) →
      removeCollaborators db us w = db) ∧
    addCollaborators (addCollaborators db us w) us w =
      addCollaborators db us w ∧
    removeCollaborators (removeCollaborators db us w) us w =
      removeCollaborators db us w := by
  refine ⟨addCollaborators_noop, removeCollaborators_noop, ?_, ?_⟩
  · exact addCollaborators_noop
      (fun u hu => pair_addCollaborators_of_mem hu db w)
  · exact removeCollaborators_noop
      (fun u hu => no_pair_removeCollaborators_of_mem hu db w)

/-- A database holding exactly the collaborator pair (w1, u1). -/
def C6db : DB :=
  { emptyDB with
      collaborators :=
        [{ id := "c1", workspaceId := "w1", createdAt := 0, userId := "u1" }] }

/-- Witness for C6 at concrete inputs: adding the existing pair (w1, u1) is a
no-op, removing the absent pair (w1, u2) is a no-op, and both double
applications collapse. -/
theorem C6_collaborators_idempotent_witness :
    addCollaborators C6db [{ id := "u1", email := none }] "w1" = C6db ∧
    removeCollaborators C6db [{ id := "u2", email := none }] "w1" = C6db ∧
    addCollaborators
        (addCollaborators C6db [{ id := "u2", email := none }] "w1")
        [{ id := "u2", email := none }] "w1" =
      addCollaborators C6db [{ id := "u2", email := none }] "w1" ∧
    removeCollaborators
        (removeCollaborators C6db [{ id := "u1", email := none }] "w1")
        [{ id := "u1", email := none }] "w1" =
      removeCollaborators C6db [{ id := "u1", email := none }] "w1" := by
  refine ⟨?_, ?_, ?_, ?_⟩
  · exact (C6_collaborators_idempotent C6db [{ id := "u1", email := none }]
      "w1").1 (by decide)
  · exact (C6_collaborators_idempotent C6db [{ id := "u2", email := none }]
      "w1").2.1 (by decide)
  · exact (C6_collaborators_idempotent C6db [{ id := "u2", email := none }]
      "w1").2.2.1
  · exact (C6_collaborators_idempotent C6db [{ id := "u1", email := none }]
      "w1").2.2.2

/-! ### C7 — listings are ordered by creation timestamp ascending -/

/-- `mergeSort` under the `byCreatedAt` comparison yields a list that is
pairwise ordered by the key, ascending. -/
theorem pairwise_createdAt_mergeSort {α : Type} (key : α → Timestamp)
    (l : List α) :
    (l.mergeSort (fun a b => byCreatedAt (key a) (key b))).Pairwise
      (fun a b => key a ≤ key b) := by
  have h := @List.sorted_mergeSort _
    (fun a b => byCreatedAt (key a) (key b))
    (fun a b c h1 h2 => by
      simp only [byCreatedAt, decide_eq_true_eq] at h1 h2
      simpa [byCreatedAt] using Nat.le_trans h1 h2)
    (fun a b => by
      simpa [byCreatedAt] using Nat.le_total (key a) (key b)) l
  exact h.imp (fun hab => by
    simpa only [byCreatedAt, decide_eq_true_eq] using hab)

/-- C7: for valid ids and a successful persistence read, `getFolders` returns
exactly the workspace's folders and `getFiles` exactly the folder's files,
each sorted ascending by `createdAt`. -/
theorem C7_listings_sorted (db : DB) (workspaceId folderId : String)
    (hw : validate workspaceId = true) (hf : validate folderId = true) :
    (∃ fl, (getFolders db workspaceId none).1.data = some fl ∧
      fl.Pairwise (fun a b => a.createdAt ≤ b.createdAt) ∧
      fl.Perm (db.folders.filter (fun f => f.workspaceId == workspaceId))) ∧
    (∃ gl, (getFiles db folderId none).1.data = some gl ∧
      gl.Pairwise (fun a b => a.createdAt ≤ b.createdAt) ∧
      gl.Perm (db.files.filter (fun f => f.folderId == folderId))) := by
  constructor
  · exact ⟨_, by simp [getFolders, hw],
      pairwise_createdAt_mergeSort FolderRow.createdAt _,
      List.mergeSort_perm _ _⟩
  · exact ⟨_, by simp [getFiles, hf],
      pairwise_createdAt_mergeSort FileRow.createdAt _,
      List.mergeSort_perm _ _⟩

/-- A valid canonical identifier used as workspace/folder id in witnesses. -/
def validId : String := "11111111-1111-1111-8111-111111111111"

/-- A database with two folders of the witness workspace (created out of
order) and two files of the witness folder. -/
def C7db : DB :=
  { emptyDB with
      folders := [mkFolder "f2" validId 5, mkFolder "f1" validId 3]
      files := [mkFile "a2" validId validId 7, mkFile "a1" validId validId 2] }

/-- Witness for C7 at a concrete database and a concrete valid id. -/
theorem C7_listings_sorted_witness :
    (∃ fl, (getFolders C7db validId none).1.data = some fl ∧
      fl.Pairwise (fun a b => a.createdAt ≤ b.createdAt) ∧
      fl.Perm (C7db.folders.filter (fun f => f.workspaceId == validId))) ∧
    (∃ gl, (getFiles C7db validId none).1.data = some gl ∧
      gl.Pairwise (fun a b => a.createdAt ≤ b.createdAt) ∧
      gl.Perm (C7db.files.filter (fun f => f.folderId == validId))) :=
  C7_listings_sorted C7db validId validId (by decide) (by decide)

/-! ### C8 — private workspaces are exactly the collaborator-free own ones -/

/-- C8: on any schema-valid database state (the `workspace_owner` column has
Postgres type `uuid`, so every stored owner is a canonical identifier),
`getPrivateWorkspaces userId` contains exactly the workspaces owned by
`userId` that no collaborator row references. -/
theorem C8_private_workspaces_exact (db : DB) (userId : String)
    (hdb : ∀ w ∈ db.workspaces, validate w.workspaceOwner = true)
    (w : WorkspaceRow) :
    w ∈ (getPrivateWorkspaces db userId).1 ↔
      (w ∈ db.workspaces ∧ w.workspaceOwner = userId ∧
        ∀ c ∈ db.collaborators, c.workspaceId ≠ w.id) := by
  by_cases hu : userId = ""
  · subst hu
    constructor
    · intro h
      simp [getPrivateWorkspaces] at h
    · rintro ⟨hw, hown, -⟩
      have hv := hdb w hw
      rw [hown] at hv
      exact absurd hv (by decide)
  · rw [getPrivateWorkspaces, if_neg (by simpa using hu)]
    rw [List.mem_filter]
    simp only [Bool.and_eq_true, Bool.not_eq_true', List.any_eq_false,
      beq_iff_eq]
    tauto

/-- A schema-valid database for the C8 witness: one collaborator-free
workspace owned by the witness user, one with a collaborator row. -/
def C8db : DB :=
  { emptyDB with
      workspaces := [mkWorkspace "w1" validId 0, mkWorkspace "w2" validId 1]
      collaborators :=
        [{ id := "c1", workspaceId := "w2", createdAt := 0, userId := "u9" }] }

/-- Witness for C8: on `C8db` the characterization holds for the
collaborator-free workspace `w1`. -/
theorem C8_private_workspaces_exact_witness :
    mkWorkspace "w1" validId 0 ∈ (getPrivateWorkspaces C8db validId).1 ↔
      (mkWorkspace "w1" validId 0 ∈ C8db.workspaces ∧
        (mkWorkspace "w1" validId 0).workspaceOwner = validId ∧
        ∀ c ∈ C8db.collaborators,
          c.workspaceId ≠ (mkWorkspace "w1" validId 0).id) :=
  C8_private_workspaces_exact C8db validId (by decide) (mkWorkspace "w1" validId 0)

/-! ### C10 — private and shared listings are disjoint -/

/-- C10: for every user id and database state, no workspace id occurs both in
`getPrivateWorkspaces` (owner's workspaces with zero collaborator rows) and in
`getSharedWorkspaces` (owner's workspaces joined with at least one
collaborator row). -/
theorem C10_private_shared_disjoint (db : DB) (userId : String)
    (w1 w2 : WorkspaceRow)
    (h1 : w1 ∈ (getPrivateWorkspaces db userId).1)
    (h2 : w2 ∈ (getSharedWorkspaces db userId).1) :
    w1.id ≠ w2.id := by
  by_cases hu : userId = ""
  · subst hu
    simp [getPrivateWorkspaces] at h1
  · rw [getPrivateWorkspaces, if_neg (by simpa using hu)] at h1
    rw [List.mem_filter] at h1
    have hno : db.collaborators.any (fun c => c.workspaceId == w1.id) = false := by
      have := h1.2
      simp only [Bool.and_eq_true, Bool.not_eq_true'] at this
      exact this.1
    rw [List.any_eq_false] at hno
    rw [getSharedWorkspaces, if_neg (by simpa using hu)] at h2
    have h2' := List.mem_dedup.mp ((List.mergeSort_perm _ _).mem_iff.mp h2)
    rw [List.mem_filter] at h2'
    obtain ⟨hjoin, -⟩ := h2'
    rw [List.mem_flatMap] at hjoin
    obtain ⟨w, -, hw2⟩ := hjoin
    rw [List.mem_map] at hw2
    obtain ⟨c, hcmem, rfl⟩ := hw2
    have hc := List.mem_filter.mp hcmem
    intro heq
    apply hno c hc.1
    rw [heq]
    exact hc.2

/-- A shared-listing witness workspace with one collaborator row. -/
def C10db : DB :=
  { emptyDB with
      workspaces := [mkWorkspace "w1" "u1" 0, mkWorkspace "w2" "u1" 1]
      collaborators :=
        [{ id := "c1", workspaceId := "w2", createdAt := 0, userId := "u9" }] }

/-- Witness for C10: on `C10db`, workspace `w1` is in the private listing,
`w2` in the shared listing, and their ids differ. -/
theorem C10_private_shared_disjoint_witness :
    (mkWorkspace "w1" "u1" 0).id ≠ (mkWorkspace "w2" "u1" 1).id := by
  apply C10_private_shared_disjoint C10db "u1"
  · decide
  · have h : mkWorkspace "w2" "u1" 1 ∈
        ((C10db.workspaces.flatMap (fun w =>
          (C10db.collaborators.filter (fun c => c.workspaceId == w.id)).map
            (fun _ => w))).filter
          (fun w => w.workspaceOwner == "u1")).dedup := by decide
    rw [getSharedWorkspaces, if_neg (by decide)]
    exact (List.mergeSort_perm _ _).mem_iff.mpr h

/-! ### C4 — the blur-commit of a pending folder title -/

/-- Store state in which folder `f1` of workspace `w1` carries the pending
title `"New"`, dispatched during editing, while the Dropdown's `title` prop
still holds the original `"Old"`. -/
def C4state : AppState :=
  { workspaces :=
      [{ toWorkspaceRow := mkWorkspace "w1" "u1" 0
         folders :=
           [{ toFolderRow := { mkFolder "f1" "w1" 0 with title := "New" }
              files := [] }] }] }

/-- C4 (code bug): during editing, `folderTitleChange` dispatches
`UPDATE_FOLDER` with the pending title `"New"`, and on focus-loss the
memoised `folderTitle` resolves to that pending title; but `handleBlur`
calls the folder persistence update as `updateFolder({ title }, fId[0])`
with the stale `title` *prop* `"Old"` — not the pending title the claim
(and the spec's editing state machine) says is committed.  (The file branch
correctly passes `fileTitle`.) -/
theorem C4_handleBlur_folder_commits_stale_title :
    folderTitleChange "w1" "f1" "New" =
      some (StoreAction.UPDATE_FOLDER "w1" "f1" { title := some "New" }) ∧
    folderTitle ListType.folder C4state "w1" "f1" "Old" = some "New" ∧
    handleBlur true ListType.folder C4state "w1" "f1" "Old" =
      some (PersistCall.folderUpdate "Old" "f1") ∧
    ("Old" : String) ≠ "New" := by
  decide

/-! ### C5 — the composite file key round-trips through `split('folder')` -/

theorem isPrefixOf_eq_true_iff {l₁ l₂ : List Char} :
    l₁.isPrefixOf l₂ = true ↔ l₁ <+: l₂ := List.isPrefixOf_iff_prefix

/-- `splitOnFuel` is independent of the fuel as long as it dominates the
input length. -/
theorem splitOnFuel_fuel_irrel (sep : List Char) :
    ∀ (f₁ f₂ : Nat) (l acc : List Char), l.length ≤ f₁ → l.length ≤ f₂ →
    splitOnFuel sep f₁ l acc = splitOnFuel sep f₂ l acc := by
  intro f₁
  induction f₁ with
  | zero =>
    intro f₂ l acc h1 _
    have hl : l = [] := List.eq_nil_of_length_eq_zero (Nat.le_zero.mp h1)
    subst hl
    cases f₂ <;> simp [splitOnFuel]
  | succ n ih =>
    intro f₂ l acc h1 h2
    cases l with
    | nil => cases f₂ <;> simp [splitOnFuel]
    | cons c rest =>
      cases f₂ with
      | zero => simp at h2
      | succ m =>
        simp only [List.length_cons] at h1 h2
        show (if sep.isPrefixOf (c :: rest) then
            acc.reverse ::
              splitOnFuel sep n (List.drop (sep.length - 1) rest) []
          else splitOnFuel sep n rest (c :: acc)) =
          (if sep.isPrefixOf (c :: rest) then
            acc.reverse ::
              splitOnFuel sep m (List.drop (sep.length - 1) rest) []
          else splitOnFuel sep m rest (c :: acc))
        by_cases hp : sep.isPrefixOf (c :: rest)
        · rw [if_pos hp, if_pos hp,
            ih m (List.drop (sep.length - 1) rest) []
              (by simp [List.length_drop]; omega)
              (by simp [List.length_drop]; omega)]
        · rw [if_neg hp, if_neg hp,
            ih m rest (c :: acc) (by omega) (by omega)]

/-- No occurrence of the separator can start inside `t` and continue into a
following copy of the separator: `"folder"` has no nontrivial border, so for
`t` not containing the separator, the separator is not a prefix of
`t ++ "folder" ++ l2`. -/
theorem fsep_not_prefix_cross (t l2 : List Char) (ht : t ≠ [])
    (hinf : ¬ fsep <:+: t) :
    fsep.isPrefixOf (t ++ (fsep ++ l2)) = false := by
  by_contra hb
  rw [Bool.not_eq_false] at hb
  have hp : fsep <+: t ++ (fsep ++ l2) := isPrefixOf_eq_true_iff.mp hb
  have hlen6 : fsep.length = 6 := by decide
  have heq : fsep = List.take 6 (t ++ (fsep ++ l2)) := by
    have h := List.prefix_iff_eq_take.mp hp
    rwa [hlen6] at h
  by_cases hl : 6 ≤ t.length
  · apply hinf
    have hft : fsep = List.take 6 t := by
      rw [heq, List.take_append_eq_append_take,
        Nat.sub_eq_zero_of_le hl, List.take_zero, List.append_nil]
    rw [hft]
    exact (List.take_prefix 6 t).isInfix
  · push_neg at hl
    have hkpos : 0 < t.length := List.length_pos.mpr ht
    have h1 : fsep = t ++ List.take (6 - t.length) fsep := by
      conv_lhs => rw [heq]
      rw [List.take_append_eq_append_take,
        List.take_of_length_le (Nat.le_of_lt hl),
        List.take_append_eq_append_take]
      have hz : 6 - t.length - fsep.length = 0 := by rw [hlen6]; omega
      rw [hz, List.take_zero, List.append_nil]
    have h2 : List.take t.length fsep = t := by
      conv_lhs => rw [h1]
      rw [List.take_append_eq_append_take, List.take_of_length_le le_rfl,
        Nat.sub_self, List.take_zero, List.append_nil]
    have h3 : fsep = List.take t.length fsep ++ List.take (6 - t.length) fsep := by
      rw [h2]; exact h1
    have hcase : t.length = 1 ∨ t.length = 2 ∨ t.length = 3 ∨ t.length = 4 ∨
        t.length = 5 := by omega
    rcases hcase with h | h | h | h | h <;> rw [h] at h3 <;>
      exact absurd h3 (by decide)

/-- Scanning a separator-free string never cuts: one final segment. -/
theorem splitOnFuel_no_sep (fuel : Nat) :
    ∀ (l acc : List Char), l.length ≤ fuel → ¬ fsep <:+: l →
    splitOnFuel fsep fuel l acc = [acc.reverse ++ l] := by
  induction fuel with
  | zero => intro l acc _ _; simp [splitOnFuel]
  | succ n ih =>
    intro l acc hf h
    cases l with
    | nil => simp [splitOnFuel]
    | cons c rest =>
      have hpre : fsep.isPrefixOf (c :: rest) = false := by
        by_contra hb
        rw [Bool.not_eq_false] at hb
        exact h (isPrefixOf_eq_true_iff.mp hb).isInfix
      show (if fsep.isPrefixOf (c :: rest) then
          acc.reverse ::
            splitOnFuel fsep n (List.drop (fsep.length - 1) rest) []
        else splitOnFuel fsep n rest (c :: acc)) = [acc.reverse ++ c :: rest]
      rw [hpre]
      simp only [Bool.false_eq_true, if_false]
      rw [ih rest (c :: acc)
        (by simp only [List.length_cons] at hf; omega)
        (fun hi => h (List.infix_cons hi))]
      simp

/-- Scanning `l1 ++ "folder" ++ l2` with `l1` separator-free cuts exactly at
the separator. -/
theorem splitOnFuel_boundary (l1 : List Char) :
    ∀ (fuel : Nat) (l2 acc : List Char),
    l1.length + 6 + l2.length ≤ fuel → ¬ fsep <:+: l1 →
    splitOnFuel fsep fuel (l1 ++ (fsep ++ l2)) acc =
      (acc.reverse ++ l1) :: splitOnFuel fsep l2.length l2 [] := by
  induction l1 with
  | nil =>
    intro fuel l2 acc hfuel h
    cases fuel with
    | zero => simp at hfuel
    | succ n =>
      have hcons : fsep ++ l2 = 'f' :: (['o', 'l', 'd', 'e', 'r'] ++ l2) := rfl
      have hpre :
          fsep.isPrefixOf ('f' :: (['o', 'l', 'd', 'e', 'r'] ++ l2)) = true := by
        rw [← hcons]
        exact isPrefixOf_eq_true_iff.mpr (List.prefix_append fsep l2)
      have hdrop :
          List.drop (fsep.length - 1) (['o', 'l', 'd', 'e', 'r'] ++ l2) = l2 :=
        rfl
      show (if fsep.isPrefixOf ('f' :: (['o', 'l', 'd', 'e', 'r'] ++ l2)) then
          acc.reverse :: splitOnFuel fsep n
            (List.drop (fsep.length - 1) (['o', 'l', 'd', 'e', 'r'] ++ l2)) []
        else splitOnFuel fsep n (['o', 'l', 'd', 'e', 'r'] ++ l2) ('f' :: acc)) =
        (acc.reverse ++ []) :: splitOnFuel fsep l2.length l2 []
      rw [hpre, hdrop]
      simp only [if_true]
      rw [splitOnFuel_fuel_irrel fsep n l2.length l2 []
        (by simp at hfuel; omega) le_rfl]
      simp
  | cons c l1' ih =>
    intro fuel l2 acc hfuel h
    cases fuel with
    | zero => simp only [List.length_cons] at hfuel; omega
    | succ n =>
      have hpre : fsep.isPrefixOf (c :: (l1' ++ (fsep ++ l2))) = false := by
        have hx := fsep_not_prefix_cross (c :: l1') l2 (by simp) h
        rwa [List.cons_append] at hx
      show (if fsep.isPrefixOf (c :: (l1' ++ (fsep ++ l2))) then
          acc.reverse :: splitOnFuel fsep n
            (List.drop (fsep.length - 1) (l1' ++ (fsep ++ l2))) []
        else splitOnFuel fsep n (l1' ++ (fsep ++ l2)) (c :: acc)) =
        (acc.reverse ++ c :: l1') :: splitOnFuel fsep l2.length l2 []
      rw [hpre]
      simp only [Bool.false_eq_true, if_false]
      rw [ih n l2 (c :: acc)
        (by simp only [List.length_cons] at hfuel; omega)
        (fun hi => h (List.infix_cons hi))]
      simp

/-- The composite key splits back into exactly its two components whenever
neither component contains the separator token. -/
theorem jsSplit_customFileId (folderId fileId : String)
    (h1 : ¬ fsep <:+: folderId.toList) (h2 : ¬ fsep <:+: fileId.toList) :
    jsSplit (customFileId folderId fileId) "folder" = [folderId, fileId] := by
  unfold jsSplit customFileId
  have hsep : ("folder" : String).toList = fsep := by decide
  have htl : ((folderId ++ "folder") ++ fileId).toList =
      folderId.toList ++ (fsep ++ fileId.toList) := by
    rw [← hsep]
    simp [String.toList, List.append_assoc]
  rw [hsep, htl]
  have hfuel : folderId.toList.length + 6 + fileId.toList.length ≤
      (folderId.toList ++ (fsep ++ fileId.toList)).length := by
    simp [fsep]
    omega
  rw [splitOnFuel_boundary folderId.toList _ fileId.toList [] hfuel h1]
  rw [splitOnFuel_no_sep fileId.toList.length fileId.toList [] le_rfl h2]
  simp only [List.reverse_nil, List.nil_append, List.map_cons, List.map_nil]
  rw [String.asString_toList, String.asString_toList]

/-- C5: the composite file key `` `${folderId}folder${fileId}` `` parses back
into exactly the original (folderId, fileId) pair at the dispatch sites
(which compute `id.split('folder')` and read segments 0 and 1), for every
folderId and fileId that do not themselves contain the separator token. -/
theorem C5_composite_key_roundtrip (folderId fileId : String)
    (h1 : ¬ fsep <:+: folderId.toList) (h2 : ¬ fsep <:+: fileId.toList) :
    jsSplit (customFileId folderId fileId) "folder" = [folderId, fileId] ∧
    parseFileKey (customFileId folderId fileId) = some (folderId, fileId) := by
  have h := jsSplit_customFileId folderId fileId h1 h2
  refine ⟨h, ?_⟩
  unfold parseFileKey
  rw [h]
  rfl

/-- Witness for C5 at the claim's concrete pair: folderId `"f1"` and fileId
`"file1"` round-trip to exactly `("f1", "file1")`. -/
theorem C5_composite_key_roundtrip_witness :
    jsSplit (customFileId "f1" "file1") "folder" = ["f1", "file1"] ∧
    parseFileKey (customFileId "f1" "file1") = some ("f1", "file1") :=
  C5_composite_key_roundtrip "f1" "file1" (by decide) (by decide)

end Cypress
